import Mathlib

/-!
Shallow embedding of the Rubik's cube solver in `src/app.py`.

The cube data model (`validate_cube`, `rotate_face`, `apply_move`,
`is_cube_solved`), the `CubeSolver` layer-by-layer stages, and the
move-sequence optimizer are translated from the Python source.  A cube
state after validation is a total assignment of a color token to each of
the 54 sticker positions; the raw (pre-validation) dict level is modelled
separately as an association list of string keys.
-/

set_option maxRecDepth 4000

/-- The six face identifiers of the cube: the keys `U,D,F,B,L,R` of the
Python cube dict. -/
inductive Face where
  | U
  | D
  | F
  | B
  | L
  | R
deriving DecidableEq, Fintype, Repr

/-- A row or column index of a 3x3 face grid: the Python indices 0, 1, 2. -/
inductive Idx where
  | i0
  | i1
  | i2
deriving DecidableEq, Fintype, Repr

/-- The reversed index `2 - i` appearing in the Python rotation cycles. -/
def invIdx : Idx → Idx
  | .i0 => .i2
  | .i1 => .i1
  | .i2 => .i0

/-- A sticker position: face, row, column. -/
abbrev Pos := Face × Idx × Idx

/-- A structurally well-formed cube state (a dict with exactly the six face
keys, each a 3x3 grid): a color token at every one of the 54 positions. -/
abbrev Cube (C : Type) := Pos → C

/-- The apostrophe character used as the counter-clockwise move suffix. -/
def apos : Char := Char.ofNat 39

/-- A move text, e.g. `R` or `U'` or `F2`, as its list of characters. -/
abbrev MoveStr := List Char

/-- Where each sticker of the cube reads its value from under one clockwise
quarter turn of `U` (app.py lines 49-58): the `U` face grid is rotated
clockwise (`rotate_face`: `new[i][j] = old[2-j][i]`) and row 0 cycles
`F ← R ← B ← L ← F`. -/
def uSrc : Pos → Pos
  | (.U, i, j) => (.U, invIdx j, i)
  | (.F, .i0, j) => (.R, .i0, j)
  | (.R, .i0, j) => (.B, .i0, j)
  | (.B, .i0, j) => (.L, .i0, j)
  | (.L, .i0, j) => (.F, .i0, j)
  | p => p

/-- Sticker sources for one clockwise quarter turn of `D` (app.py lines
59-64): `D` face rotated, row 2 cycles `F ← L ← B ← R ← F`. -/
def dSrc : Pos → Pos
  | (.D, i, j) => (.D, invIdx j, i)
  | (.F, .i2, j) => (.L, .i2, j)
  | (.L, .i2, j) => (.B, .i2, j)
  | (.B, .i2, j) => (.R, .i2, j)
  | (.R, .i2, j) => (.F, .i2, j)
  | p => p

/-- Sticker sources for one clockwise quarter turn of `F` (app.py lines
65-71): `F` face rotated; `U[2][i] ← L[2-i][2]`, `L[2-i][2] ← D[0][2-i]`,
`D[0][2-i] ← R[i][0]`, `R[i][0] ← U[2][i]` (simultaneous reading of the
pre-move values, as the Python in-place loop reads each slot before
overwriting it). -/
def fSrc : Pos → Pos
  | (.F, i, j) => (.F, invIdx j, i)
  | (.U, .i2, i) => (.L, invIdx i, .i2)
  | (.L, i, .i2) => (.D, .i0, i)
  | (.D, .i0, i) => (.R, invIdx i, .i0)
  | (.R, i, .i0) => (.U, .i2, i)
  | p => p

/-- Sticker sources for one clockwise quarter turn of `B` (app.py lines
72-78): `B` face rotated; `U[0][i] ← R[i][2]`, `R[i][2] ← D[2][2-i]`,
`D[2][2-i] ← L[2-i][0]`, `L[2-i][0] ← U[0][i]`. -/
def bSrc : Pos → Pos
  | (.B, i, j) => (.B, invIdx j, i)
  | (.U, .i0, i) => (.R, i, .i2)
  | (.R, i, .i2) => (.D, .i2, invIdx i)
  | (.D, .i2, i) => (.L, i, .i0)
  | (.L, i, .i0) => (.U, .i0, invIdx i)
  | p => p

/-- Sticker sources for one clockwise quarter turn of `L` (app.py lines
79-85): `L` face rotated; `U[i][0] ← B[2-i][2]`, `B[2-i][2] ← D[i][0]`,
`D[i][0] ← F[i][0]`, `F[i][0] ← U[i][0]`. -/
def lSrc : Pos → Pos
  | (.L, i, j) => (.L, invIdx j, i)
  | (.U, i, .i0) => (.B, invIdx i, .i2)
  | (.B, i, .i2) => (.D, invIdx i, .i0)
  | (.D, i, .i0) => (.F, i, .i0)
  | (.F, i, .i0) => (.U, i, .i0)
  | p => p

/-- Sticker sources for one clockwise quarter turn of `R` (app.py lines
86-92): `R` face rotated; `U[i][2] ← F[i][2]`, `F[i][2] ← D[i][2]`,
`D[i][2] ← B[2-i][0]`, `B[2-i][0] ← U[i][2]`. -/
def rSrc : Pos → Pos
  | (.R, i, j) => (.R, invIdx j, i)
  | (.U, i, .i2) => (.F, i, .i2)
  | (.F, i, .i2) => (.D, i, .i2)
  | (.D, i, .i2) => (.B, invIdx i, .i0)
  | (.B, i, .i0) => (.U, invIdx i, .i2)
  | p => p

/-- Dispatch of the per-face sticker-source maps (the `elif` chain of
`apply_move`). -/
def moveSrc : Face → Pos → Pos
  | .U => uSrc
  | .D => dSrc
  | .F => fSrc
  | .B => bSrc
  | .L => lSrc
  | .R => rSrc

/-- One atomic clockwise quarter turn of face `f`: every sticker takes the
value of its source position. -/
def atomic_move {C : Type} (f : Face) (c : Cube C) : Cube C :=
  fun p => c (moveSrc f p)

/-- `for _ in range(turns)` in `apply_move`: iterate the atomic quarter
turn. -/
def repeatAtomic {C : Type} (f : Face) : Nat → Cube C → Cube C
  | 0, c => c
  | n + 1, c => repeatAtomic f n (atomic_move f c)

/-- The n-fold iterate of the position-source map of face `f`. -/
def srcIterate (f : Face) : Nat → Pos → Pos
  | 0, p => p
  | n + 1, p => moveSrc f (srcIterate f n p)

/-- Errors raised by `apply_move` on malformed move text. -/
inductive MoveError where
  | invalidMove
  | invalidMoveSuffix
deriving DecidableEq, Repr

/-- The check `move[0] not in 'UDFBLR'` of `apply_move`: which face a
leading character denotes, if any. -/
def charToFace (ch : Char) : Option Face :=
  if ch = 'U' then some .U
  else if ch = 'D' then some .D
  else if ch = 'F' then some .F
  else if ch = 'B' then some .B
  else if ch = 'L' then some .L
  else if ch = 'R' then some .R
  else none

/-- `turns = 3 if "'" in suffix else (2 if "2" in suffix else 1)`
(app.py line 45). -/
def turnsOfSuffix (suffix : List Char) : Nat :=
  if apos ∈ suffix then 3 else if '2' ∈ suffix then 2 else 1

/-- `apply_move(cube, move)` (app.py lines 35-93).  An empty move or a
leading character outside `UDFBLR` raises `Invalid move`; a suffix other
than the empty string, the apostrophe or `2` raises `Invalid move suffix`;
otherwise the atomic clockwise rotation is repeated `turns` times on a
copy of the state. -/
def apply_move {C : Type} (c : Cube C) (move : MoveStr) : Except MoveError (Cube C) :=
  match move with
  | [] => .error .invalidMove
  | ch :: suffix =>
    match charToFace ch with
    | none => .error .invalidMove
    | some f =>
      if suffix ∈ ([[], [apos], ['2']] : List (List Char)) then
        .ok (repeatAtomic f (turnsOfSuffix suffix) c)
      else .error .invalidMoveSuffix

/-- The six faces in the iteration order `'UDFBLR'` of `is_cube_solved`
(also the insertion order of the `face_colors` dict). -/
def faceList : List Face := [.U, .D, .F, .B, .L, .R]

/-- The three grid indices in order. -/
def idxList : List Idx := [.i0, .i1, .i2]

/-- `is_cube_solved(cube)` (app.py lines 95-102): every sticker of every
face equals that face's center sticker. -/
def is_cube_solved {C : Type} [DecidableEq C] (c : Cube C) : Bool :=
  faceList.all fun f =>
    idxList.all fun r =>
      idxList.all fun j => decide (c (f, r, j) = c (f, .i1, .i1))

/-- Replaying a list of move texts from a state with `apply_move`,
stopping at the first move error. -/
def replay_moves {C : Type} (c : Cube C) : List MoveStr → Except MoveError (Cube C)
  | [] => .ok c
  | m :: rest =>
    match apply_move c m with
    | .ok c2 => replay_moves c2 rest
    | .error e => .error e

/-- The multiset of the 54 sticker color tokens of a cube state. -/
def sticker_multiset {C : Type} (c : Cube C) : Multiset C :=
  Multiset.map c Finset.univ.val

/-- `turns1` and `turns2` of `_optimize_solution` (app.py lines 159-160):
quarter-turn count read off a whole move string by substring membership. -/
def turnsOfMove (m : MoveStr) : Nat :=
  if apos ∉ m ∧ '2' ∉ m then 1 else if apos ∈ m then 3 else 2

/-- The merged move emitted by `_optimize_solution` for a nonzero total
turn count: `face` for 1, `face + "2"` for 2, `face + "'"` otherwise. -/
def mergedMove (face : Char) (total : Nat) : MoveStr :=
  if total = 1 then [face] else if total = 2 then [face, '2'] else [face, apos]

/-- `_optimize_solution` (app.py lines 150-178): a single left-to-right
pass over the solution log.  When two adjacent moves share their leading
face character (`solution[i][0] == solution[i+1][0]`; every logged move is
nonempty, modelled by `head?`), their turn counts are summed mod 4 and the
pair is replaced by nothing (total 0) or the single merged move, advancing
past both; otherwise the move is emitted unchanged. -/
def optimize_solution : List MoveStr → List MoveStr
  | m1 :: m2 :: rest =>
    if m1.head? = m2.head? then
      if (turnsOfMove m1 + turnsOfMove m2) % 4 = 0 then optimize_solution rest
      else mergedMove (m1.headD 'U') ((turnsOfMove m1 + turnsOfMove m2) % 4) :: optimize_solution rest
    else m1 :: optimize_solution (m2 :: rest)
  | l => l

/-- The 18 move texts of the grammar `[UDFBLR]("|'|2)`. -/
def allMoves : List MoveStr :=
  [['U'], ['U', apos], ['U', '2'],
   ['D'], ['D', apos], ['D', '2'],
   ['F'], ['F', apos], ['F', '2'],
   ['B'], ['B', apos], ['B', '2'],
   ['L'], ['L', apos], ['L', '2'],
   ['R'], ['R', apos], ['R', '2']]

/-- The syntactic inverse of a move as described by the spec: `U ↦ U'`,
`U' ↦ U`, `U2 ↦ U2`, likewise for the other faces. -/
def syntacticInverse (m : MoveStr) : MoveStr :=
  match m with
  | [ch] => [ch, apos]
  | [ch, suf] => if suf = apos then [ch] else [ch, suf]
  | _ => m

/-- Errors that can abort a solve run: the move-budget exception of
`CubeSolver._apply` (app.py line 124), a move-text error propagated from
`apply_move`, the Python `NameError` raised by the undefined variable
`edge` at app.py line 317, the `IndexError` of the empty list-comprehension
lookup at app.py line 378, and the `ValueError` of `validate_cube`. -/
inductive SolveErr where
  | budget
  | moveErr (e : MoveError)
  | nameError
  | indexError
  | formatErr
deriving DecidableEq, Repr

/-- The solver state: the private working copy of the cube, the shared
solution log, and the face-center colors bound at construction
(`CubeSolver.__init__`, app.py lines 106-119). -/
structure CubeSolver (C : Type) where
  cube : Cube C
  solution : List MoveStr
  face_colors : Face → C

/-- `self.max_moves = 200` (app.py line 117). -/
def max_moves : Nat := 200

/-- `CubeSolver(cube)` construction: deep copy of the state (value copy
here) with an empty solution log and the six center colors. -/
def CubeSolver.init {C : Type} (c : Cube C) : CubeSolver C :=
  { cube := c, solution := [], face_colors := fun f => c (f, .i1, .i1) }

/-- The loop of `CubeSolver._apply`: apply each move in order, appending it
to the solution log. -/
def CubeSolver.applyAll {C : Type} (s : CubeSolver C) : List MoveStr → Except SolveErr (CubeSolver C)
  | [] => .ok s
  | m :: rest =>
    match apply_move s.cube m with
    | .error e => .error (.moveErr e)
    | .ok c2 => CubeSolver.applyAll { s with cube := c2, solution := s.solution ++ [m] } rest

/-- `CubeSolver._apply(moves)` (app.py lines 121-129): raise the budget
exception when the log already holds `max_moves` entries, otherwise apply
and log every move of the sequence. -/
def CubeSolver.apply {C : Type} (s : CubeSolver C) (moves : List MoveStr) : Except SolveErr (CubeSolver C) :=
  if s.solution.length ≥ max_moves then .error .budget
  else s.applyAll moves

/-- An entry of the fixed 12-entry edge table of `_find_edge`
(app.py lines 182-189). -/
structure EdgePos where
  f1 : Face
  r1 : Idx
  c1 : Idx
  f2 : Face
  r2 : Idx
  c2 : Idx
deriving DecidableEq, Repr

/-- The edge table of `_find_edge` (app.py lines 182-189). -/
def edge_table : List EdgePos :=
  [⟨.U, .i0, .i1, .B, .i0, .i1⟩, ⟨.U, .i1, .i0, .L, .i0, .i1⟩,
   ⟨.U, .i1, .i2, .R, .i0, .i1⟩, ⟨.U, .i2, .i1, .F, .i0, .i1⟩,
   ⟨.F, .i1, .i0, .L, .i1, .i2⟩, ⟨.F, .i1, .i2, .R, .i1, .i0⟩,
   ⟨.F, .i2, .i1, .D, .i0, .i1⟩, ⟨.B, .i1, .i0, .R, .i1, .i2⟩,
   ⟨.B, .i1, .i2, .L, .i1, .i0⟩, ⟨.B, .i2, .i1, .D, .i2, .i1⟩,
   ⟨.D, .i1, .i0, .L, .i2, .i1⟩, ⟨.D, .i1, .i2, .R, .i2, .i1⟩]

/-- `CubeSolver._find_edge(color1, color2)` (app.py lines 180-195): first
table entry whose two stickers form exactly the unordered pair of the two
colors (Python set equality). -/
def CubeSolver.find_edge {C : Type} [DecidableEq C] (s : CubeSolver C) (color1 color2 : C) : Option EdgePos :=
  edge_table.find? fun e =>
    decide (({s.cube (e.f1, e.r1, e.c1), s.cube (e.f2, e.r2, e.c2)} : Finset C) = {color1, color2})

/-- An entry of the fixed 8-entry corner table of `_find_corner`
(app.py lines 268-273). -/
structure CornerPos where
  f1 : Face
  r1 : Idx
  c1 : Idx
  f2 : Face
  r2 : Idx
  c2 : Idx
  f3 : Face
  r3 : Idx
  c3 : Idx
deriving DecidableEq, Repr

/-- The corner table of `_find_corner` (app.py lines 268-273). -/
def corner_table : List CornerPos :=
  [⟨.U, .i0, .i0, .L, .i0, .i0, .B, .i0, .i2⟩, ⟨.U, .i0, .i2, .B, .i0, .i0, .R, .i0, .i2⟩,
   ⟨.U, .i2, .i0, .F, .i0, .i0, .L, .i0, .i2⟩, ⟨.U, .i2, .i2, .R, .i0, .i0, .F, .i0, .i2⟩,
   ⟨.D, .i0, .i0, .L, .i2, .i2, .F, .i2, .i0⟩, ⟨.D, .i0, .i2, .F, .i2, .i2, .R, .i2, .i0⟩,
   ⟨.D, .i2, .i0, .B, .i2, .i2, .L, .i2, .i0⟩, ⟨.D, .i2, .i2, .R, .i2, .i2, .B, .i2, .i0⟩]

/-- `CubeSolver._find_corner(color1, color2, color3)` (app.py lines
266-279): first table entry whose three stickers form exactly the
unordered triple of the three colors. -/
def CubeSolver.find_corner {C : Type} [DecidableEq C] (s : CubeSolver C) (color1 color2 color3 : C) : Option CornerPos :=
  corner_table.find? fun k =>
    decide (({s.cube (k.f1, k.r1, k.c1), s.cube (k.f2, k.r2, k.c2), s.cube (k.f3, k.r3, k.c3)} : Finset C) = {color1, color2, color3})

/-- Result of one iteration of a bounded Python `for _ in range(n)` loop:
either `break` out with the state or continue to the next iteration. -/
inductive Step (α : Type) where
  | brk (a : α)
  | next (a : α)

/-- A Python `for _ in range(n)` loop whose body may `break` or raise:
runs the body at most `n` times. -/
def loopN {α : Type} (body : α → Except SolveErr (Step α)) : Nat → α → Except SolveErr α
  | 0, a => .ok a
  | n + 1, a =>
    match body a with
    | .error e => .error e
    | .ok (.brk a2) => .ok a2
    | .ok (.next a2) => loopN body n a2

/-- Move-text constants used by the solver stages. -/
def mU : MoveStr := ['U']
def mUp : MoveStr := ['U', apos]
def mU2 : MoveStr := ['U', '2']
def mD : MoveStr := ['D']
def mDp : MoveStr := ['D', apos]
def mD2 : MoveStr := ['D', '2']
def mF : MoveStr := ['F']
def mFp : MoveStr := ['F', apos]
def mB : MoveStr := ['B']
def mBp : MoveStr := ['B', apos]
def mB2 : MoveStr := ['B', '2']
def mL : MoveStr := ['L']
def mLp : MoveStr := ['L', apos]
def mR : MoveStr := ['R']
def mRp : MoveStr := ['R', apos]
def mR2 : MoveStr := ['R', '2']

/-- The face letter as a character. -/
def faceChar : Face → Char
  | .U => 'U'
  | .D => 'D'
  | .F => 'F'
  | .B => 'B'
  | .L => 'L'
  | .R => 'R'

/-- The single-quarter-turn move text of a face (`[face]` in the Python
stage code). -/
def faceMove (f : Face) : MoveStr := [faceChar f]

/-- The counter-clockwise move text of a face (`face + "'"`). -/
def facePrime (f : Face) : MoveStr := [faceChar f, apos]

/-- The skip test of `_solve_white_cross` (app.py lines 210-215): the edge
already sits in its correct top position with correct orientation. -/
def wcSkip (face : Face) (e : EdgePos) : Bool :=
  decide (e.f1 = .U
    ∧ ((face = .F ∧ e.r1 = .i2 ∧ e.c1 = .i1) ∨ (face = .R ∧ e.r1 = .i1 ∧ e.c1 = .i2)
      ∨ (face = .B ∧ e.r1 = .i0 ∧ e.c1 = .i1) ∨ (face = .L ∧ e.r1 = .i1 ∧ e.c1 = .i0))
    ∧ e.f2 = face)

/-- The `f1 != 'D' and f2 != 'D'` block of `_solve_white_cross` (app.py
lines 219-249): bring the edge out of the top/middle layers, then re-find
it (`None` result makes the caller continue to the next face). -/
def CubeSolver.wc_phaseA {C : Type} [DecidableEq C] (s : CubeSolver C) (white side : C) (face : Face) (e : EdgePos) :
    Except SolveErr (CubeSolver C × Option EdgePos) := do
  if e.f1 ≠ .D ∧ e.f2 ≠ .D then do
    let s ←
      (if e.f1 = .U then do
        let se ← loopN (fun se =>
            let (s, e) := (se : CubeSolver C × EdgePos)
            if e.f1 = .U ∧ e.r1 = .i2 ∧ e.c1 = .i1 ∧ e.f2 = .F then .ok (.brk se)
            else do
              let s ← s.apply [mU]
              match s.find_edge white side with
              | none => Except.ok (.brk (s, e))
              | some e2 => Except.ok (.next (s, e2))) 4 (s, e)
        let s := se.1
        match face with
        | .F => s.apply [mF]
        | .R => s.apply [mR]
        | .B => s.apply [mB]
        | _ => s.apply [mL]
      else
        if e.f1 = .F ∧ e.r1 = .i1 ∧ e.c1 = .i2 then s.apply [mR, mU, mRp]
        else if e.f1 = .F ∧ e.r1 = .i1 ∧ e.c1 = .i0 then s.apply [mLp, mUp, mL]
        else if e.f1 = .B ∧ e.r1 = .i1 ∧ e.c1 = .i2 then s.apply [mRp, mUp, mR]
        else if e.f1 = .B ∧ e.r1 = .i1 ∧ e.c1 = .i0 then s.apply [mL, mU, mLp]
        else pure s)
    pure (s, s.find_edge white side)
  else pure (s, some e)

/-- The `f1 == 'D' or f2 == 'D'` block of `_solve_white_cross` (app.py
lines 252-264): rotate `D` until the side sticker faces its own center,
then insert the edge. -/
def CubeSolver.wc_phaseB {C : Type} [DecidableEq C] (s : CubeSolver C) (white side : C) (face : Face) (e : EdgePos) :
    Except SolveErr (CubeSolver C) := do
  if e.f1 = .D ∨ e.f2 = .D then do
    let se ← loopN (fun se =>
        let (s, e) := (se : CubeSolver C × EdgePos)
        if e.f2 = face then .ok (.brk se)
        else do
          let s ← s.apply [mD]
          match s.find_edge white side with
          | none => Except.ok (.brk (s, e))
          | some e2 => Except.ok (.next (s, e2))) 4 (s, e)
    let (s, e) := se
    if e.f1 = .D then s.apply [faceMove face, faceMove face]
    else s.apply [facePrime face, mUp, facePrime face]
  else pure s

/-- One iteration (one target face) of `_solve_white_cross` (app.py lines
199-264). -/
def CubeSolver.white_cross_face {C : Type} [DecidableEq C] (s : CubeSolver C) (face : Face) :
    Except SolveErr (CubeSolver C) :=
  let white := s.face_colors .U
  let side := s.face_colors face
  match s.find_edge white side with
  | none => .ok s
  | some e =>
    if wcSkip face e then .ok s
    else do
      let r ← s.wc_phaseA white side face e
      match r.2 with
      | none => pure r.1
      | some e => r.1.wc_phaseB white side face e

/-- `_solve_white_cross` (app.py lines 197-264): one pass over the faces
`F, R, B, L`. -/
def CubeSolver.solve_white_cross {C : Type} [DecidableEq C] (s : CubeSolver C) : Except SolveErr (CubeSolver C) := do
  let s ← s.white_cross_face .F
  let s ← s.white_cross_face .R
  let s ← s.white_cross_face .B
  s.white_cross_face .L

/-- `'L' if face == 'F' else 'F' if face == 'R' else 'R' if face == 'B'
else 'B'` (app.py lines 285 and 313). -/
def adjPrev : Face → Face
  | .F => .L
  | .R => .F
  | .B => .R
  | _ => .B

/-- One iteration (one target face) of `_solve_white_corners` (app.py
lines 283-337).  The `for` loop over `D` at lines 312-318 reads the
undefined variable `edge` (line 317) in every iteration that does not
break immediately, raising a Python `NameError`. -/
def CubeSolver.white_corners_face {C : Type} [DecidableEq C] (s : CubeSolver C) (face : Face) :
    Except SolveErr (CubeSolver C) :=
  let white := s.face_colors .U
  let sc1 := s.face_colors face
  let sc2 := s.face_colors (adjPrev face)
  match s.find_corner white sc1 sc2 with
  | none => .ok s
  | some k => do
    let r ←
      (if k.f1 ≠ .D ∧ k.f2 ≠ .D ∧ k.f3 ≠ .D then do
        let sk ← loopN (fun sk =>
            let (s, k) := (sk : CubeSolver C × CornerPos)
            if k.f1 = .U ∧ k.r1 = .i2 ∧ k.c1 = .i2 ∧ k.f2 = .R ∧ k.f3 = .F then .ok (.brk sk)
            else do
              let s ← s.apply [mU]
              match s.find_corner white sc1 sc2 with
              | none => Except.ok (.brk (s, k))
              | some k2 => Except.ok (.next (s, k2))) 4 (s, k)
        let s ← sk.1.apply [mR, mD, mRp, mDp]
        pure (s, s.find_corner white sc1 sc2)
      else pure (s, some k))
    match r.2 with
    | none => pure r.1
    | some k =>
      let s := r.1
      if k.f1 = .D ∨ k.f2 = .D ∨ k.f3 = .D then do
        let sk ← loopN (fun sk =>
            let (s, k) := (sk : CubeSolver C × CornerPos)
            if k.f2 = face ∧ k.f3 = adjPrev face then .ok (.brk sk)
            else do
              let s ← s.apply [mD]
              let _ := s.find_corner white sc1 sc2
              Except.error .nameError) 4 (s, k)
        let (s, k) := sk
        if k.f1 = .D then
          match face with
          | .F => s.apply [mF, mDp, mFp]
          | .R => s.apply [mRp, mD, mR]
          | .B => s.apply [mB, mD2, mBp, mD2]
          | _ => s.apply [mL, mDp, mLp]
        else
          match face with
          | .F => s.apply [mFp, mDp, mF]
          | .R => s.apply [mR, mD, mRp]
          | .B => s.apply [mBp, mD2, mB]
          | _ => s.apply [mL, mDp, mLp]
      else pure s

/-- `_solve_white_corners` (app.py lines 281-337): one pass over the faces
`F, R, B, L`. -/
def CubeSolver.solve_white_corners {C : Type} [DecidableEq C] (s : CubeSolver C) : Except SolveErr (CubeSolver C) := do
  let s ← s.white_corners_face .F
  let s ← s.white_corners_face .R
  let s ← s.white_corners_face .B
  s.white_corners_face .L

/-- `'R' if f == 'F' else 'B' if f == 'R' else 'L' if f == 'B' else 'F'`
(app.py line 344). -/
def adjNext : Face → Face
  | .F => .R
  | .R => .B
  | .B => .L
  | _ => .F

/-- The face scan at the top of each `_solve_second_layer` iteration
(app.py lines 342-350).  Python leaks the loop variables: the returned pair
of faces is `(f, adj_face)` at the `break`, or `(L, F)` when the loop runs
to completion. -/
def CubeSolver.sl_scan {C : Type} [DecidableEq C] (s : CubeSolver C) :
    List Face → Option EdgePos → Option EdgePos × Face × Face
  | [], edge => (edge, .L, .F)
  | f :: rest, edge =>
    let adj := adjNext f
    match s.find_edge (s.face_colors f) (s.face_colors adj) with
    | some e =>
      if e.f1 ≠ .U ∧ e.f1 ≠ .D ∧ e.f2 ≠ .U ∧ e.f2 ≠ .D then s.sl_scan rest edge
      else (some e, f, adj)
    | none => s.sl_scan rest none

/-- One iteration of the `for _ in range(4)` loop of `_solve_second_layer`
(app.py lines 341-392). -/
def CubeSolver.sl_iter {C : Type} [DecidableEq C] (s : CubeSolver C) : Except SolveErr (CubeSolver C) := do
  let scan := s.sl_scan [Face.F, Face.R, Face.B, Face.L] none
  let f := scan.2.1
  let adj := scan.2.2
  match scan.1 with
  | none => pure s
  | some e => do
    let r ←
      (if e.f1 ≠ .U ∧ e.f1 ≠ .D ∧ e.f2 ≠ .U ∧ e.f2 ≠ .D then do
        let s ←
          (if e.f1 = .F ∧ e.r1 = .i1 ∧ e.c1 = .i2 then
            s.apply [mU, mR, mUp, mRp, mUp, mFp, mU, mF]
          else if e.f1 = .F ∧ e.r1 = .i1 ∧ e.c1 = .i0 then
            s.apply [mUp, mLp, mU, mL, mU, mF, mUp, mFp]
          else pure s)
        pure (s, s.find_edge (s.face_colors f) (s.face_colors adj))
      else pure (s, some e))
    match r.2 with
    | none => pure r.1
    | some e =>
      let s := r.1
      if e.f1 = .U ∨ e.f2 = .U ∨ e.f1 = .D ∨ e.f2 = .D then
        if e.f1 = .U ∨ e.f2 = .U then do
          let face := if e.f1 = .U then e.f2 else e.f1
          let se ← loopN (fun se =>
              let (s, e) := (se : CubeSolver C × EdgePos)
              if s.cube (face, .i0, .i1) = s.face_colors face then .ok (.brk se)
              else do
                let s ← s.apply [mU]
                match s.find_edge (s.face_colors f) (s.face_colors adj) with
                | none => Except.ok (.brk (s, e))
                | some e2 => Except.ok (.next (s, e2))) 4 (s, e)
          let (s, e) := se
          let other_color := if e.f1 ≠ .U then s.cube (e.f1, e.r1, e.c1) else s.cube (e.f2, e.r2, e.c2)
          match (faceList.filter fun k => decide (s.face_colors k = other_color)).head? with
          | none => Except.error .indexError
          | some target_face =>
            if target_face = .R then s.apply [mU, mR, mUp, mRp, mUp, mFp, mU, mF]
            else s.apply [mUp, mLp, mU, mL, mU, mF, mUp, mFp]
        else do
          let se ← loopN (fun se =>
              let (s, e) := (se : CubeSolver C × EdgePos)
              if e.f1 = .F ∧ e.r1 = .i2 ∧ e.c1 = .i1 then .ok (.brk se)
              else do
                let s ← s.apply [mD]
                match s.find_edge (s.face_colors f) (s.face_colors adj) with
                | none => Except.ok (.brk (s, e))
                | some e2 => Except.ok (.next (s, e2))) 4 (s, e)
          se.1.apply [mF, mU, mFp]
      else pure s

/-- `_solve_second_layer` (app.py lines 339-392): four iterations. -/
def CubeSolver.solve_second_layer {C : Type} [DecidableEq C] (s : CubeSolver C) : Except SolveErr (CubeSolver C) := do
  let s ← s.sl_iter
  let s ← s.sl_iter
  let s ← s.sl_iter
  s.sl_iter

/-- The four bottom-edge tests of `_solve_yellow_cross` (app.py lines
396-401): `D[0][1], D[1][0], D[1][2], D[2][1]` against the yellow color. -/
def CubeSolver.yc_edges {C : Type} [DecidableEq C] (s : CubeSolver C) : List Bool :=
  [decide (s.cube (.D, .i0, .i1) = s.face_colors .D),
   decide (s.cube (.D, .i1, .i0) = s.face_colors .D),
   decide (s.cube (.D, .i1, .i2) = s.face_colors .D),
   decide (s.cube (.D, .i2, .i1) = s.face_colors .D)]

/-- `_solve_yellow_cross` (app.py lines 394-432). -/
def CubeSolver.solve_yellow_cross {C : Type} [DecidableEq C] (s : CubeSolver C) : Except SolveErr (CubeSolver C) := do
  let edges := s.yc_edges
  let count := edges.count true
  if count = 4 then pure s
  else do
    let r ←
      (if count = 0 then do
        let s ← s.apply [mF, mR, mU, mRp, mUp, mFp]
        pure (s, s.yc_edges, s.yc_edges.count true)
      else pure (s, edges, count))
    let s := r.1
    let edges := r.2.1
    let count := r.2.2
    if count = 2 then do
      let s ←
        (if edges.getD 0 false && edges.getD 2 false then s.apply [mD]
        else if !(edges.getD 1 false && edges.getD 3 false) then do
          let se ← loopN (fun se =>
              let (s, edges) := (se : CubeSolver C × List Bool)
              if edges.getD 1 false && edges.getD 2 false then .ok (.brk se)
              else do
                let s ← s.apply [mD]
                Except.ok (.next (s, s.yc_edges))) 4 (s, edges)
          pure se.1
        else pure s)
      s.apply [mF, mU, mR, mUp, mRp, mFp]
    else pure s

/-- One iteration of the outer loop of `_solve_yellow_face` (app.py lines
436-452): `return` when all four bottom corners show yellow, otherwise
rotate `D` until `D[2][2]` is yellow and apply the orientation trigger. -/
def CubeSolver.yf_iter {C : Type} [DecidableEq C] (s : CubeSolver C) : Except SolveErr (Step (CubeSolver C)) := do
  let corners :=
    [decide (s.cube (.D, .i0, .i0) = s.face_colors .D),
     decide (s.cube (.D, .i0, .i2) = s.face_colors .D),
     decide (s.cube (.D, .i2, .i0) = s.face_colors .D),
     decide (s.cube (.D, .i2, .i2) = s.face_colors .D)]
  if corners.all id then .ok (.brk s)
  else do
    let s ← loopN (fun s =>
        if (s : CubeSolver C).cube (.D, .i2, .i2) = s.face_colors .D then .ok (.brk s)
        else do
          let s ← s.apply [mD]
          Except.ok (.next s)) 4 s
    let s ← s.apply [mR, mU, mRp, mU, mR, mU2, mRp]
    .ok (.next s)

/-- `_solve_yellow_face` (app.py lines 434-452). -/
def CubeSolver.solve_yellow_face {C : Type} [DecidableEq C] (s : CubeSolver C) : Except SolveErr (CubeSolver C) :=
  loopN CubeSolver.yf_iter 4 s

/-- The solved test of `_position_final_corners` (app.py lines 464-476):
for each adjacent face pair, the top-layer corner stickers form the
expected color set. -/
def CubeSolver.final_corners_solved {C : Type} [DecidableEq C] (s : CubeSolver C) : Bool :=
  [(Face.F, Face.R), (Face.R, Face.B), (Face.B, Face.L), (Face.L, Face.F)].all fun fp =>
    let face := fp.1
    let next_face := fp.2
    let uRow : Idx := if face = .F ∨ face = .R then .i2 else .i0
    let uCol : Idx := if face = .R ∨ face = .B then .i2 else .i0
    let fCol : Idx := if face = .F ∨ face = .B then .i2 else .i0
    let nCol : Idx := if next_face = .F ∨ next_face = .B then .i0 else .i2
    decide (({s.cube (.U, uRow, uCol), s.cube (face, .i0, fCol), s.cube (next_face, .i0, nCol)} : Finset C)
      = {s.face_colors .U, s.face_colors face, s.face_colors next_face})

/-- `_position_final_corners` (app.py lines 459-482). -/
def CubeSolver.position_final_corners {C : Type} [DecidableEq C] (s : CubeSolver C) : Except SolveErr (CubeSolver C) :=
  loopN (fun s =>
    if (s : CubeSolver C).final_corners_solved then .ok (.brk s)
    else do
      let s ← s.apply [mRp, mF, mRp, mB2, mR, mFp, mRp, mB2, mR2]
      let s ← s.apply [mU]
      Except.ok (.next s)) 4 s

/-- The solved test of `_position_final_edges` (app.py lines 489-493). -/
def CubeSolver.final_edges_solved {C : Type} [DecidableEq C] (s : CubeSolver C) : Bool :=
  [Face.F, Face.R, Face.B, Face.L].all fun face => decide (s.cube (face, .i0, .i1) = s.face_colors face)

/-- `_position_final_edges` (app.py lines 484-499). -/
def CubeSolver.position_final_edges {C : Type} [DecidableEq C] (s : CubeSolver C) : Except SolveErr (CubeSolver C) :=
  loopN (fun s =>
    if (s : CubeSolver C).final_edges_solved then .ok (.brk s)
    else do
      let s ← s.apply [mR2, mU, mR, mU, mRp, mUp, mRp, mUp, mRp, mU, mRp]
      let s ← s.apply [mU]
      Except.ok (.next s)) 4 s

/-- `_solve_final_layer` (app.py lines 454-457). -/
def CubeSolver.solve_final_layer {C : Type} [DecidableEq C] (s : CubeSolver C) : Except SolveErr (CubeSolver C) := do
  let s ← s.position_final_corners
  s.position_final_edges

/-- `validate_cube` specialized to a structurally well-formed cube state:
the key-set and 3x3-grid checks of app.py lines 13-23 hold by construction
of `Cube`, leaving the distinct-color bound of lines 26-27. -/
def validate_wf {C : Type} [DecidableEq C] (c : Cube C) : Except SolveErr Unit :=
  if (Finset.univ.image c).card > 6 then .error .formatErr else .ok ()

/-- The `try` block of `CubeSolver.solve` (app.py lines 136-145): validate,
run the six stages in order, then optimize the accumulated log. -/
def CubeSolver.solve_body {C : Type} [DecidableEq C] (s : CubeSolver C) : Except SolveErr (List MoveStr) := do
  let _ ← validate_wf s.cube
  let s ← s.solve_white_cross
  let s ← s.solve_white_corners
  let s ← s.solve_second_layer
  let s ← s.solve_yellow_cross
  let s ← s.solve_yellow_face
  let s ← s.solve_final_layer
  pure (optimize_solution s.solution)

/-- The sentinel failure entry returned when any stage-level exception is
caught (app.py line 148). -/
def sentinelChars : MoveStr := "Solver failed. Please reset and try again.".toList

/-- `CubeSolver(state).solve()` on a structurally well-formed state
(app.py lines 131-148): an already-solved cube returns the empty list;
otherwise any exception escaping the `try` block is converted into the
single sentinel failure entry. -/
def CubeSolver.solve {C : Type} [DecidableEq C] (c : Cube C) : List MoveStr :=
  if is_cube_solved c then []
  else
    match (CubeSolver.init c).solve_body with
    | .ok sol => sol
    | .error _ => [sentinelChars]

/-- A raw (pre-validation) cube state: the JSON-level Python dict mapping
string keys to grids of string color tokens, modelled as an association
list.  Python dict keys are unique, so association lists with duplicate
keys model no real input. -/
abbrev RawCube := List (String × List (List String))

/-- Python dict lookup `cube[k]`: the entry for key `k`, if present. -/
def lookupRaw (cube : RawCube) (k : String) : Option (List (List String)) :=
  (cube.find? fun e => decide (e.1 = k)).map fun e => e.2

/-- Python runtime errors that can escape the solver driver: `KeyError`
from a missing dict key and `IndexError` from a missing grid position. -/
inductive PyErr where
  | keyError
  | indexError
deriving DecidableEq, Repr

/-- The string key of a face. -/
def faceKey : Face → String
  | .U => "U"
  | .D => "D"
  | .F => "F"
  | .B => "B"
  | .L => "L"
  | .R => "R"

/-- The center read `cube[face][1][1]` on a raw state, as performed by
`CubeSolver.__init__` (app.py lines 109-116) and `is_cube_solved`
(app.py line 98): `KeyError` when the face key is missing, `IndexError`
when the grid has no row 1 or the row no column 1. -/
def read_center (cube : RawCube) (f : Face) : Except PyErr String :=
  match lookupRaw cube (faceKey f) with
  | none => .error .keyError
  | some grid =>
    match grid[1]? with
    | none => .error .indexError
    | some row =>
      match row[1]? with
      | none => .error .indexError
      | some c => .ok c

/-- The `face_colors` dict built by `CubeSolver.__init__` (app.py lines
109-116), reading the six centers in the order `U, D, F, B, L, R`. -/
def init_face_colors (cube : RawCube) : Except PyErr (Face → String) := do
  let u ← read_center cube .U
  let d ← read_center cube .D
  let f ← read_center cube .F
  let b ← read_center cube .B
  let l ← read_center cube .L
  let r ← read_center cube .R
  pure fun face =>
    match face with
    | .U => u
    | .D => d
    | .F => f
    | .B => b
    | .L => l
    | .R => r

/-- The face loop of `is_cube_solved` on a raw state: read the center of
each face in order, returning `False` as soon as a face has a sticker
differing from its center (later faces are then not touched). -/
def is_cube_solved_raw_go (cube : RawCube) : List Face → Except PyErr Bool
  | [] => .ok true
  | f :: rest => do
    let center ← read_center cube f
    let grid := (lookupRaw cube (faceKey f)).getD []
    if grid.any fun row => row.any fun sticker => decide (sticker ≠ center) then pure false
    else is_cube_solved_raw_go cube rest

/-- `is_cube_solved(cube)` (app.py lines 95-102) on a raw state: raises
`KeyError`/`IndexError` where Python would. -/
def is_cube_solved_raw (cube : RawCube) : Except PyErr Bool :=
  is_cube_solved_raw_go cube faceList

/-- The row loop of `validate_cube` (app.py lines 21-24): check each row
of a face grid is a 3-element list and collect its color tokens. -/
def collectRows : List (List String) → Finset String → Except SolveErr (Finset String)
  | [], colors => .ok colors
  | row :: rest, colors =>
    if row.length ≠ 3 then .error .formatErr
    else collectRows rest (colors ∪ row.toFinset)

/-- The face loop of `validate_cube` (app.py lines 18-24): check each face
grid is a 3-element list of 3-element rows, collecting all color tokens. -/
def collectFaces : RawCube → Finset String → Except SolveErr (Finset String)
  | [], colors => .ok colors
  | (_, grid) :: rest, colors =>
    if grid.length ≠ 3 then .error .formatErr
    else
      match collectRows grid colors with
      | .error e => .error e
      | .ok colors2 => collectFaces rest colors2

/-- The exact key set `{'U','D','F','B','L','R'}` demanded by
`validate_cube` (app.py line 13). -/
def validFacesSet : Finset String := {"U", "D", "F", "B", "L", "R"}

/-- `validate_cube(cube)` (app.py lines 11-29): the key set must be exactly
the six faces, every face a 3x3 grid, and the union of all tokens at most
6 distinct values; all failures raise `ValueError` (`FormatError`).  The
entry list of a `RawCube` stands for the items of a Python dict, whose
keys are unique. -/
def validate_cube (cube : RawCube) : Except SolveErr Unit :=
  if (cube.map fun e => e.1).toFinset ≠ validFacesSet then .error .formatErr
  else
    match collectFaces cube ∅ with
    | .error e => .error e
    | .ok colors => if colors.card > 6 then .error .formatErr else .ok ()

/-- The numeric value of a grid index. -/
def idxNat : Idx → Nat
  | .i0 => 0
  | .i1 => 1
  | .i2 => 2

/-- The well-formed view of a raw state that passed `validate_cube`:
sticker `(f, i, j)` is `cube[f][i][j]`. -/
def toCube (cube : RawCube) : Cube String := fun p =>
  ((((lookupRaw cube (faceKey p.1)).getD []).getD (idxNat p.2.1) []).getD (idxNat p.2.2) "")

/-- The contents of the `try` block of `CubeSolver.solve` (app.py lines
136-145) on a raw state: validate the dict, then run the six stages (on
the well-formed view, which agrees with the dict once validation passed)
and optimize the accumulated log. -/
def solve_stages (cube : RawCube) (colors : Face → String) : Except SolveErr (List MoveStr) := do
  let _ ← validate_cube cube
  let s : CubeSolver String := { cube := toCube cube, solution := [], face_colors := colors }
  let s ← s.solve_white_cross
  let s ← s.solve_white_corners
  let s ← s.solve_second_layer
  let s ← s.solve_yellow_cross
  let s ← s.solve_yellow_face
  let s ← s.solve_final_layer
  pure (optimize_solution s.solution)

/-- The `try`/`except` of `CubeSolver.solve` (app.py lines 136-148): any
exception raised inside the block becomes the single sentinel failure
entry. -/
def solve_try (cube : RawCube) (colors : Face → String) : List MoveStr :=
  match solve_stages cube colors with
  | .ok sol => sol
  | .error _ => [sentinelChars]

/-- The solver driver on a raw input state: `CubeSolver(state)` construction
(center reads, app.py lines 106-119) followed by `CubeSolver.solve()`
(lines 131-148).  The initial `is_cube_solved` test (line 133) sits outside
the `try` block, and construction precedes it; only exceptions inside the
`try` block (validation, the six stages, optimization) are converted into
the sentinel failure entry. -/
def solve_raw (cube : RawCube) : Except PyErr (List MoveStr) := do
  let colors ← init_face_colors cube
  let solved ← is_cube_solved_raw cube
  if solved then pure []
  else pure (solve_try cube colors)

/-- Concrete color tokens for a solved cube: one letter per face. -/
def faceColorChar : Face → Char
  | .U => 'w'
  | .D => 'y'
  | .F => 'g'
  | .B => 'b'
  | .L => 'o'
  | .R => 'r'

/-- The solved cube: every sticker shows its face's color. -/
def solvedCube : Cube Char := fun p => faceColorChar p.1

/-- The scramble `["R", "U", "R'", "U'"]` of the spec scenario. -/
def scramble : List MoveStr := [mR, mU, mRp, mUp]

/-- The state obtained by applying the scramble to the solved cube
(`R` is one atomic turn, `U` one, `R'` three, `U'` three). -/
def scrambledCube : Cube Char :=
  repeatAtomic .U 3 (repeatAtomic .R 3 (repeatAtomic .U 1 (repeatAtomic .R 1 solvedCube)))

/-- A face grid filled with a single color token. -/
def solidGrid (c : String) : List (List String) := [[c, c, c], [c, c, c], [c, c, c]]

/-- A raw solved cube state with six distinct colors. -/
def solvedRaw : RawCube :=
  [("U", solidGrid "w"), ("D", solidGrid "y"), ("F", solidGrid "g"),
   ("B", solidGrid "b"), ("L", solidGrid "o"), ("R", solidGrid "r")]

/-- A raw state whose `U` face is an empty grid: all six keys are present,
but `cube['U'][1][1]` raises `IndexError`. -/
def badRaw : RawCube :=
  [("U", []), ("D", solidGrid "y"), ("F", solidGrid "g"),
   ("B", solidGrid "b"), ("L", solidGrid "o"), ("R", solidGrid "r")]

/-- A solver state whose solution log already holds 200 moves. -/
def fullSolver : CubeSolver Char :=
  { cube := solvedCube, solution := List.replicate 200 mU, face_colors := faceColorChar }

/-- The face denoted by a move's leading character (defaults are never hit
on moves of the grammar). -/
def moveFace (m : MoveStr) : Face := (charToFace (m.headD 'U')).getD .U

/-- The face-colors function of the raw solved cube. -/
def solvedColors : Face → String
  | .U => "w"
  | .D => "y"
  | .F => "g"
  | .B => "b"
  | .L => "o"
  | .R => "r"

/-! ### Theorems -/

/-- Four quarter turns of any face restore every sticker position, and so
do the 8- and 12-fold iterates (the images of `U2 U2` and `U' U'` pairs). -/
theorem srcIterate_id_pows :
    ∀ (f : Face) (p : Pos), srcIterate f 4 p = p ∧ srcIterate f 8 p = p ∧ srcIterate f 12 p = p := by
  decide

/-- `repeatAtomic` is precomposition with the iterated source map. -/
theorem repeatAtomic_pointwise {C : Type} (f : Face) (n : Nat) (c : Cube C) :
    repeatAtomic f n c = fun p => c (srcIterate f n p) := by
  induction n generalizing c with
  | zero => rfl
  | succ n ih =>
    show repeatAtomic f n (atomic_move f c) = _
    rw [ih]
    rfl

/-- When the iterated source map is the identity, the iterated move is the
identity on cube states. -/
theorem repeatAtomic_eq_self {C : Type} (f : Face) (n : Nat)
    (h : ∀ p, srcIterate f n p = p) (c : Cube C) : repeatAtomic f n c = c := by
  rw [repeatAtomic_pointwise]
  funext p
  rw [h p]

/-- Composing two bounded turn counts of the same face agrees with the
single turn count summed mod 4. -/
theorem srcIterate_merge (f : Face) (t1 t2 : Nat) (h1 : t1 ≤ 3) (h2 : t2 ≤ 3) :
    ∀ p, srcIterate f t1 (srcIterate f t2 p) = srcIterate f ((t1 + t2) % 4) p := by
  interval_cases t1 <;> interval_cases t2 <;> revert f <;> decide

/-- Cube-state version of `srcIterate_merge`. -/
theorem repeatAtomic_merge {C : Type} (f : Face) (t1 t2 : Nat) (h1 : t1 ≤ 3) (h2 : t2 ≤ 3)
    (c : Cube C) : repeatAtomic f t2 (repeatAtomic f t1 c) = repeatAtomic f ((t1 + t2) % 4) c := by
  rw [repeatAtomic_pointwise f t1 c, repeatAtomic_pointwise, repeatAtomic_pointwise]
  funext p
  show c (srcIterate f t1 (srcIterate f t2 p)) = c (srcIterate f ((t1 + t2) % 4) p)
  rw [srcIterate_merge f t1 t2 h1 h2 p]

/-- One atomic quarter turn permutes the sticker multiset. -/
theorem sticker_multiset_atomic {C : Type} (f : Face) (c : Cube C) :
    sticker_multiset (atomic_move f c) = sticker_multiset c := by
  show Multiset.map (fun p => c (moveSrc f p)) Finset.univ.val = Multiset.map c Finset.univ.val
  rw [show (fun p => c (moveSrc f p)) = c ∘ moveSrc f from rfl, ← Multiset.map_map]
  congr 1
  cases f <;> decide

/-- Any number of quarter turns of one face permutes the sticker
multiset. -/
theorem sticker_multiset_repeat {C : Type} (f : Face) (n : Nat) (c : Cube C) :
    sticker_multiset (repeatAtomic f n c) = sticker_multiset c := by
  induction n generalizing c with
  | zero => rfl
  | succ n ih =>
    show sticker_multiset (repeatAtomic f n (atomic_move f c)) = _
    rw [ih, sticker_multiset_atomic]

/-- C4: for every structurally valid cube state and every valid move text,
`apply_move` succeeds and returns a state whose multiset of 54 sticker
color tokens equals that of the input state — a pure permutation, no token
created or destroyed. -/
theorem apply_move_preserves_stickers {C : Type} (c : Cube C) (m : MoveStr) (h : m ∈ allMoves) :
    ∃ c2, apply_move c m = .ok c2 ∧ sticker_multiset c2 = sticker_multiset c := by
  fin_cases h <;> exact ⟨_, rfl, sticker_multiset_repeat _ _ c⟩

/-- Witness for C4: the move `U` on the solved cube. -/
theorem apply_move_preserves_stickers_witness :
    ∃ c2, apply_move solvedCube mU = .ok c2 ∧ sticker_multiset c2 = sticker_multiset solvedCube :=
  apply_move_preserves_stickers solvedCube mU (by decide)

set_option maxHeartbeats 4000000 in
/-- C5: for every structurally valid cube state and every valid move text,
applying the move four times returns the exact original state, and applying
the move followed by its syntactic inverse returns the exact original
state. -/
theorem apply_move_four_and_inverse {C : Type} (c : Cube C) (m : MoveStr) (h : m ∈ allMoves) :
    replay_moves c [m, m, m, m] = .ok c ∧ replay_moves c [m, syntacticInverse m] = .ok c := by
  have h4 : ∀ f, ∀ p, srcIterate f 4 p = p := fun f p => (srcIterate_id_pows f p).1
  have h8 : ∀ f, ∀ p, srcIterate f 8 p = p := fun f p => (srcIterate_id_pows f p).2.1
  have h12 : ∀ f, ∀ p, srcIterate f 12 p = p := fun f p => (srcIterate_id_pows f p).2.2
  fin_cases h
  · exact ⟨congrArg Except.ok (repeatAtomic_eq_self Face.U 4 (h4 _) c),
           congrArg Except.ok (repeatAtomic_eq_self Face.U 4 (h4 _) c)⟩
  · exact ⟨congrArg Except.ok (repeatAtomic_eq_self Face.U 12 (h12 _) c),
           congrArg Except.ok (repeatAtomic_eq_self Face.U 4 (h4 _) c)⟩
  · exact ⟨congrArg Except.ok (repeatAtomic_eq_self Face.U 8 (h8 _) c),
           congrArg Except.ok (repeatAtomic_eq_self Face.U 4 (h4 _) c)⟩
  · exact ⟨congrArg Except.ok (repeatAtomic_eq_self Face.D 4 (h4 _) c),
           congrArg Except.ok (repeatAtomic_eq_self Face.D 4 (h4 _) c)⟩
  · exact ⟨congrArg Except.ok (repeatAtomic_eq_self Face.D 12 (h12 _) c),
           congrArg Except.ok (repeatAtomic_eq_self Face.D 4 (h4 _) c)⟩
  · exact ⟨congrArg Except.ok (repeatAtomic_eq_self Face.D 8 (h8 _) c),
           congrArg Except.ok (repeatAtomic_eq_self Face.D 4 (h4 _) c)⟩
  · exact ⟨congrArg Except.ok (repeatAtomic_eq_self Face.F 4 (h4 _) c),
           congrArg Except.ok (repeatAtomic_eq_self Face.F 4 (h4 _) c)⟩
  · exact ⟨congrArg Except.ok (repeatAtomic_eq_self Face.F 12 (h12 _) c),
           congrArg Except.ok (repeatAtomic_eq_self Face.F 4 (h4 _) c)⟩
  · exact ⟨congrArg Except.ok (repeatAtomic_eq_self Face.F 8 (h8 _) c),
           congrArg Except.ok (repeatAtomic_eq_self Face.F 4 (h4 _) c)⟩
  · exact ⟨congrArg Except.ok (repeatAtomic_eq_self Face.B 4 (h4 _) c),
           congrArg Except.ok (repeatAtomic_eq_self Face.B 4 (h4 _) c)⟩
  · exact ⟨congrArg Except.ok (repeatAtomic_eq_self Face.B 12 (h12 _) c),
           congrArg Except.ok (repeatAtomic_eq_self Face.B 4 (h4 _) c)⟩
  · exact ⟨congrArg Except.ok (repeatAtomic_eq_self Face.B 8 (h8 _) c),
           congrArg Except.ok (repeatAtomic_eq_self Face.B 4 (h4 _) c)⟩
  · exact ⟨congrArg Except.ok (repeatAtomic_eq_self Face.L 4 (h4 _) c),
           congrArg Except.ok (repeatAtomic_eq_self Face.L 4 (h4 _) c)⟩
  · exact ⟨congrArg Except.ok (repeatAtomic_eq_self Face.L 12 (h12 _) c),
           congrArg Except.ok (repeatAtomic_eq_self Face.L 4 (h4 _) c)⟩
  · exact ⟨congrArg Except.ok (repeatAtomic_eq_self Face.L 8 (h8 _) c),
           congrArg Except.ok (repeatAtomic_eq_self Face.L 4 (h4 _) c)⟩
  · exact ⟨congrArg Except.ok (repeatAtomic_eq_self Face.R 4 (h4 _) c),
           congrArg Except.ok (repeatAtomic_eq_self Face.R 4 (h4 _) c)⟩
  · exact ⟨congrArg Except.ok (repeatAtomic_eq_self Face.R 12 (h12 _) c),
           congrArg Except.ok (repeatAtomic_eq_self Face.R 4 (h4 _) c)⟩
  · exact ⟨congrArg Except.ok (repeatAtomic_eq_self Face.R 8 (h8 _) c),
           congrArg Except.ok (repeatAtomic_eq_self Face.R 4 (h4 _) c)⟩

/-- Witness for C5: the move `U` on the solved cube. -/
theorem apply_move_four_and_inverse_witness :
    replay_moves solvedCube [mU, mU, mU, mU] = .ok solvedCube
    ∧ replay_moves solvedCube [mU, syntacticInverse mU] = .ok solvedCube :=
  apply_move_four_and_inverse solvedCube mU (by decide)

/-- A successful `_apply` run appends exactly the given moves to the
solution log. -/
theorem CubeSolver.applyAll_solution {C : Type} :
    ∀ (moves : List MoveStr) (s s2 : CubeSolver C), s.applyAll moves = .ok s2 →
      s2.solution = s.solution ++ moves := by
  intro moves
  induction moves with
  | nil =>
    intro s s2 h
    cases h
    simp
  | cons m rest ih =>
    intro s s2 h
    simp only [CubeSolver.applyAll] at h
    cases hm : apply_move s.cube m with
    | error e => rw [hm] at h; cases h
    | ok c2 =>
      rw [hm] at h
      rw [ih _ _ h]
      simp

/-- C2: the shared solution log is bounded by the global move budget of
200: a `_apply` call made once the log has reached 200 entries fails with
the `MoveBudgetExceeded` exception (aborting the solve), so every
successful append happened from a log of fewer than 200 entries, each call
extending the log by exactly its moves. -/
theorem apply_enforces_budget {C : Type} (s : CubeSolver C) (moves : List MoveStr) :
    (s.solution.length ≥ max_moves → s.apply moves = .error .budget)
    ∧ (∀ s2, s.apply moves = .ok s2 →
        s.solution.length < max_moves ∧ s2.solution = s.solution ++ moves) := by
  constructor
  · intro h
    simp [CubeSolver.apply, if_pos h]
  · intro s2 h2
    by_cases h : s.solution.length ≥ max_moves
    · simp [CubeSolver.apply, if_pos h] at h2
    · rw [CubeSolver.apply, if_neg h] at h2
      exact ⟨Nat.lt_of_not_le h, CubeSolver.applyAll_solution moves s s2 h2⟩

/-- Witness for C2: a solver whose log already holds 200 moves rejects any
further `_apply` call. -/
theorem apply_enforces_budget_witness :
    fullSolver.apply [mU] = .error .budget :=
  (apply_enforces_budget fullSolver [mU]).1 (by decide)

/-- C7: the move optimizer is a single left-to-right pass; adjacent moves
with the same face letter are replaced by the single move whose quarter
turn count is their sum mod 4 (both dropped at 0), advancing past both
without re-examining the merged result, and other moves are emitted
unchanged; in particular the four example reductions hold. -/
theorem optimize_solution_spec :
    (∀ m1 m2 rest, m1.head? = m2.head? → (turnsOfMove m1 + turnsOfMove m2) % 4 = 0 →
        optimize_solution (m1 :: m2 :: rest) = optimize_solution rest)
    ∧ (∀ m1 m2 rest, m1.head? = m2.head? → (turnsOfMove m1 + turnsOfMove m2) % 4 ≠ 0 →
        optimize_solution (m1 :: m2 :: rest)
          = mergedMove (m1.headD 'U') ((turnsOfMove m1 + turnsOfMove m2) % 4) :: optimize_solution rest)
    ∧ (∀ m1 m2 rest, m1.head? ≠ m2.head? →
        optimize_solution (m1 :: m2 :: rest) = m1 :: optimize_solution (m2 :: rest))
    ∧ optimize_solution [mU, mU] = [mU2]
    ∧ optimize_solution [mU, mUp] = []
    ∧ optimize_solution [mU, mU2] = [mUp]
    ∧ optimize_solution [mR, mRp, mF] = [mF] := by
  refine ⟨?_, ?_, ?_, by decide, by decide, by decide, by decide⟩
  · intro m1 m2 rest h1 h2
    simp [optimize_solution, h1, h2]
  · intro m1 m2 rest h1 h2
    simp [optimize_solution, h1, h2]
  · intro m1 m2 rest h1
    simp [optimize_solution, h1]

/-- Witness for C7: merging `U` with `U'` drops the pair. -/
theorem optimize_solution_spec_witness :
    optimize_solution [mU, mUp, mF] = optimize_solution [mF] :=
  optimize_solution_spec.1 mU mUp [mF] (by decide) (by decide)

/-- C8: `apply_move` fails exactly on malformed move text: with
`InvalidMoveError` when the leading character is not a face letter
(including the empty string), with `InvalidMoveSuffixError` when the
remaining suffix is not one of the empty string, the apostrophe or `2`,
and it succeeds on every move text of the grammar. -/
theorem apply_move_error_spec {C : Type} (c : Cube C) (m : MoveStr) :
    (m.head?.bind charToFace = none → apply_move c m = .error .invalidMove)
    ∧ (∀ f, m.head?.bind charToFace = some f →
        m.tail ∉ ([[], [apos], ['2']] : List (List Char)) →
        apply_move c m = .error .invalidMoveSuffix)
    ∧ (∀ f, m.head?.bind charToFace = some f →
        m.tail ∈ ([[], [apos], ['2']] : List (List Char)) →
        apply_move c m = .ok (repeatAtomic f (turnsOfSuffix m.tail) c)) := by
  match m with
  | [] =>
    refine ⟨fun _ => rfl, ?_, ?_⟩
    · intro f hf
      simp at hf
    · intro f hf
      simp at hf
  | ch :: suffix =>
    have hhead : (ch :: suffix).head?.bind charToFace = charToFace ch := rfl
    refine ⟨?_, ?_, ?_⟩
    · intro h
      rw [hhead] at h
      simp [apply_move, h]
    · intro f hf hmem
      rw [hhead] at hf
      simp only [List.tail_cons] at hmem
      simp [apply_move, hf, hmem]
    · intro f hf hmem
      rw [hhead] at hf
      simp only [List.tail_cons] at hmem
      simp [apply_move, hf, hmem]

/-- Witness for C8: the three behaviours at concrete move texts. -/
theorem apply_move_error_spec_witness :
    apply_move solvedCube ([] : MoveStr) = .error .invalidMove
    ∧ apply_move solvedCube ['U', 'x'] = .error .invalidMoveSuffix
    ∧ apply_move solvedCube mU = .ok (repeatAtomic Face.U (turnsOfSuffix (List.tail mU)) solvedCube) :=
  ⟨(apply_move_error_spec solvedCube []).1 (by decide),
   (apply_move_error_spec solvedCube ['U', 'x']).2.1 Face.U (by decide) (by decide),
   (apply_move_error_spec solvedCube mU).2.2 Face.U (by decide) (by decide)⟩

/-- The row loop of `validate_cube` succeeds on a face of 3-element rows,
collecting their tokens. -/
theorem collectRows_ok (grid : List (List String)) (h : ∀ row ∈ grid, row.length = 3) :
    ∀ acc, collectRows grid acc = .ok (acc ∪ grid.flatten.toFinset) := by
  induction grid with
  | nil =>
    intro acc
    simp [collectRows]
  | cons row rest ih =>
    intro acc
    have hrow : row.length = 3 := h row (List.mem_cons_self row rest)
    rw [collectRows, if_neg (not_not_intro hrow)]
    rw [ih (fun r hr => h r (List.mem_cons_of_mem row hr)) (acc ∪ row.toFinset)]
    simp [List.toFinset_append, Finset.union_assoc]

/-- The row loop of `validate_cube` fails when some row is not a 3-element
list. -/
theorem collectRows_err (grid : List (List String)) (h : ¬ ∀ row ∈ grid, row.length = 3) :
    ∀ acc, collectRows grid acc = .error .formatErr := by
  induction grid with
  | nil => exact absurd (by simp) h
  | cons row rest ih =>
    intro acc
    by_cases hrow : row.length = 3
    · rw [collectRows, if_neg (not_not_intro hrow)]
      refine ih ?_ _
      intro hrest
      exact h fun r hr => by
        rcases List.mem_cons.mp hr with rfl | hr2
        · exact hrow
        · exact hrest r hr2
    · rw [collectRows, if_pos hrow]

/-- The face loop of `validate_cube` succeeds on 3x3 grids, collecting all
tokens of the cube. -/
theorem collectFaces_ok (cube : RawCube)
    (h : ∀ e ∈ cube, e.2.length = 3 ∧ ∀ row ∈ e.2, row.length = 3) :
    ∀ acc, collectFaces cube acc = .ok (acc ∪ ((cube.map fun e => e.2).flatten.flatten.toFinset)) := by
  induction cube with
  | nil =>
    intro acc
    simp [collectFaces]
  | cons e rest ih =>
    intro acc
    obtain ⟨k, grid⟩ := e
    have he := h (k, grid) (List.mem_cons_self _ rest)
    rw [collectFaces, if_neg (not_not_intro he.1), collectRows_ok grid he.2 acc]
    show collectFaces rest (acc ∪ grid.flatten.toFinset) = _
    rw [ih (fun e2 h2 => h e2 (List.mem_cons_of_mem _ h2)) (acc ∪ grid.flatten.toFinset)]
    simp [List.flatten_cons, List.flatten_append, List.toFinset_append, Finset.union_assoc]

/-- The face loop of `validate_cube` fails when some face is not a 3x3
grid. -/
theorem collectFaces_err (cube : RawCube)
    (h : ¬ ∀ e ∈ cube, e.2.length = 3 ∧ ∀ row ∈ e.2, row.length = 3) :
    ∀ acc, collectFaces cube acc = .error .formatErr := by
  induction cube with
  | nil => exact absurd (by simp) h
  | cons e rest ih =>
    intro acc
    obtain ⟨k, grid⟩ := e
    by_cases hg : grid.length = 3
    · by_cases hr : ∀ row ∈ grid, row.length = 3
      · rw [collectFaces, if_neg (not_not_intro hg), collectRows_ok grid hr acc]
        refine ih ?_ _
        intro hrest
        exact h fun e2 h2 => by
          rcases List.mem_cons.mp h2 with rfl | h3
          · exact ⟨hg, hr⟩
          · exact hrest e2 h3
      · rw [collectFaces, if_neg (not_not_intro hg), collectRows_err grid hr acc]
    · rw [collectFaces, if_pos hg]

/-- C9: `validate` fails with `FormatError` exactly on structurally
malformed states: it rejects a state whose key set is not exactly the six
faces, whose faces are not all 3x3 grids, or whose union of tokens holds
more than 6 distinct values, and accepts every state meeting all three
conditions (permutation legality is never checked).  The `Nodup`
hypothesis records that the association list models a Python dict. -/
theorem validate_cube_iff (cube : RawCube) (hkeys : (cube.map fun e => e.1).Nodup) :
    validate_cube cube = .ok () ↔
      ((cube.map fun e => e.1).toFinset = validFacesSet
        ∧ (∀ e ∈ cube, e.2.length = 3 ∧ ∀ row ∈ e.2, row.length = 3)
        ∧ (cube.map fun e => e.2).flatten.flatten.toFinset.card ≤ 6) := by
  unfold validate_cube
  by_cases hk : (cube.map fun e => e.1).toFinset = validFacesSet
  · rw [if_neg (not_not_intro hk)]
    by_cases hs : ∀ e ∈ cube, e.2.length = 3 ∧ ∀ row ∈ e.2, row.length = 3
    · rw [collectFaces_ok cube hs ∅]
      simp only [Finset.empty_union]
      by_cases hc : (cube.map fun e => e.2).flatten.flatten.toFinset.card > 6
      · rw [if_pos hc]
        exact iff_of_false (by simp) fun h => absurd h.2.2 (Nat.not_le_of_lt hc)
      · rw [if_neg hc]
        exact iff_of_true rfl ⟨hk, hs, Nat.le_of_not_lt hc⟩
    · rw [collectFaces_err cube hs ∅]
      exact iff_of_false (by simp) fun h => hs h.2.1
  · rw [if_pos hk]
    exact iff_of_false (by simp) fun h => hk h.1

/-- Witness for C9: the raw solved cube passes validation. -/
theorem validate_cube_iff_witness : validate_cube solvedRaw = .ok () :=
  (validate_cube_iff solvedRaw (by decide)).mpr (by decide)

/-- Binding a successful `Except` computation applies the continuation. -/
theorem except_bind_ok {ε α β : Type} (a : α) (k : α → Except ε β) :
    (Except.ok a : Except ε α) >>= k = k a := rfl

/-- Binding a failed `Except` computation propagates the error. -/
theorem except_bind_err {ε α β : Type} (e : ε) (k : α → Except ε β) :
    (Except.error e : Except ε α) >>= k = Except.error e := rfl

/-- When `CubeSolver.__init__` succeeds, each of the six center reads
succeeds. -/
theorem init_face_colors_reads (cube : RawCube) (colors : Face → String)
    (h : init_face_colors cube = .ok colors) :
    ∀ f, ∃ c, read_center cube f = .ok c := by
  unfold init_face_colors at h
  cases hu : read_center cube .U with
  | error e => rw [hu, except_bind_err] at h; cases h
  | ok u =>
  rw [hu, except_bind_ok] at h
  cases hd : read_center cube .D with
  | error e => rw [hd, except_bind_err] at h; cases h
  | ok d =>
  rw [hd, except_bind_ok] at h
  cases hf : read_center cube .F with
  | error e => rw [hf, except_bind_err] at h; cases h
  | ok f =>
  rw [hf, except_bind_ok] at h
  cases hb : read_center cube .B with
  | error e => rw [hb, except_bind_err] at h; cases h
  | ok b =>
  rw [hb, except_bind_ok] at h
  cases hl : read_center cube .L with
  | error e => rw [hl, except_bind_err] at h; cases h
  | ok l =>
  rw [hl, except_bind_ok] at h
  cases hr : read_center cube .R with
  | error e => rw [hr, except_bind_err] at h; cases h
  | ok r =>
    intro face
    cases face with
    | U => exact ⟨u, hu⟩
    | D => exact ⟨d, hd⟩
    | F => exact ⟨f, hf⟩
    | B => exact ⟨b, hb⟩
    | L => exact ⟨l, hl⟩
    | R => exact ⟨r, hr⟩

/-- The face loop of the raw `is_cube_solved` can only fail in a center
read. -/
theorem is_cube_solved_raw_go_ok (cube : RawCube) :
    ∀ (fs : List Face), (∀ f ∈ fs, ∃ c, read_center cube f = .ok c) →
      ∃ b, is_cube_solved_raw_go cube fs = .ok b := by
  intro fs
  induction fs with
  | nil => exact fun _ => ⟨true, rfl⟩
  | cons f rest ih =>
    intro h
    obtain ⟨c, hc⟩ := h f (List.mem_cons_self f rest)
    unfold is_cube_solved_raw_go
    rw [hc, except_bind_ok]
    show ∃ b, (if (((lookupRaw cube (faceKey f)).getD []).any fun row =>
        row.any fun sticker => decide (sticker ≠ c)) = true then pure false
      else is_cube_solved_raw_go cube rest) = Except.ok b
    split
    · exact ⟨false, rfl⟩
    · exact ih fun f2 h2 => h f2 (List.mem_cons_of_mem f h2)

/-- Counterexample to C3: the raw state whose `U` face is an empty grid
makes the solve driver propagate the `IndexError` of the center read
`cube['U'][1][1]` in `CubeSolver.__init__` — before the `try` block of
`solve` — instead of returning a sentinel list. -/
theorem solve_raw_badRaw_propagates : solve_raw badRaw = .error .indexError := rfl

/-- C3 (amended): for every input state on which the constructor's six
center reads succeed, `solve` returns a list and never propagates an
exception; any failure inside the `try` block (`FormatError`,
`MoveBudgetExceeded`, or an internal fault) is converted into the single
sentinel failure entry of the returned list. -/
theorem solve_raw_total (cube : RawCube) (colors : Face → String)
    (h : init_face_colors cube = .ok colors) :
    (∃ l, solve_raw cube = .ok l)
    ∧ (∀ e, solve_stages cube colors = .error e → solve_try cube colors = [sentinelChars]) := by
  constructor
  · obtain ⟨b, hb⟩ := is_cube_solved_raw_go_ok cube faceList
      (fun f _ => init_face_colors_reads cube colors h f)
    have hb2 : is_cube_solved_raw cube = .ok b := hb
    unfold solve_raw
    rw [h, except_bind_ok, hb2, except_bind_ok]
    cases b with
    | false => exact ⟨solve_try cube colors, rfl⟩
    | true => exact ⟨[], rfl⟩
  · intro e he
    unfold solve_try
    rw [he]

/-- Witness for the amended C3 at the raw solved cube. -/
theorem solve_raw_total_witness :
    (∃ l, solve_raw solvedRaw = .ok l)
    ∧ (∀ e, solve_stages solvedRaw solvedColors = .error e →
        solve_try solvedRaw solvedColors = [sentinelChars]) :=
  solve_raw_total solvedRaw solvedColors rfl

/-- Replay steps through a successful move application. -/
theorem replay_cons_ok {C : Type} {c c2 : Cube C} {m : MoveStr} {ms : List MoveStr}
    (h : apply_move c m = .ok c2) : replay_moves c (m :: ms) = replay_moves c2 ms := by
  show (match apply_move c m with
    | .ok c3 => replay_moves c3 ms
    | .error e => (.error e : Except MoveError (Cube C))) = _
  rw [h]

/-- On a move of the grammar, `apply_move` performs `turnsOfMove` atomic
turns of the move's face. -/
theorem apply_move_allMoves {C : Type} (c : Cube C) (m : MoveStr) (h : m ∈ allMoves) :
    apply_move c m = .ok (repeatAtomic (moveFace m) (turnsOfMove m) c) := by
  fin_cases h <;> rfl

/-- A move of the grammar has 1, 2 or 3 quarter turns. -/
theorem turnsOfMove_mem (m : MoveStr) (h : m ∈ allMoves) :
    turnsOfMove m = 1 ∨ turnsOfMove m = 2 ∨ turnsOfMove m = 3 := by
  fin_cases h <;> decide

/-- Moves with the same leading character turn the same face. -/
theorem moveFace_head (m1 m2 : MoveStr) (h : m1.head? = m2.head?) : moveFace m1 = moveFace m2 := by
  cases m1 <;> cases m2 <;> simp_all [moveFace, List.headD]

/-- The merged move emitted by the optimizer applies exactly its turn
count to the shared face. -/
theorem apply_move_merged {C : Type} (c : Cube C) (m : MoveStr) (h : m ∈ allMoves) (t : Nat)
    (ht : t = 1 ∨ t = 2 ∨ t = 3) :
    apply_move c (mergedMove (m.headD 'U') t) = .ok (repeatAtomic (moveFace m) t c) := by
  fin_cases h <;> rcases ht with rfl | rfl | rfl <;> rfl

/-- Unfolding the optimizer on an adjacent same-face pair cancelling to
zero turns. -/
theorem optimize_cons_merge0 (m1 m2 : MoveStr) (rest : List MoveStr)
    (hh : m1.head? = m2.head?) (hz : (turnsOfMove m1 + turnsOfMove m2) % 4 = 0) :
    optimize_solution (m1 :: m2 :: rest) = optimize_solution rest := by
  simp [optimize_solution, hh, hz]

/-- Unfolding the optimizer on an adjacent same-face pair merging to a
nonzero turn count. -/
theorem optimize_cons_merge (m1 m2 : MoveStr) (rest : List MoveStr)
    (hh : m1.head? = m2.head?) (hz : (turnsOfMove m1 + turnsOfMove m2) % 4 ≠ 0) :
    optimize_solution (m1 :: m2 :: rest)
      = mergedMove (m1.headD 'U') ((turnsOfMove m1 + turnsOfMove m2) % 4) :: optimize_solution rest := by
  simp [optimize_solution, hh, hz]

/-- Unfolding the optimizer on adjacent moves of different faces. -/
theorem optimize_cons_diff (m1 m2 : MoveStr) (rest : List MoveStr) (hh : m1.head? ≠ m2.head?) :
    optimize_solution (m1 :: m2 :: rest) = m1 :: optimize_solution (m2 :: rest) := by
  simp [optimize_solution, hh]

/-- Bounded-length induction for the optimizer replay equivalence. -/
theorem replay_optimize_aux {C : Type} :
    ∀ (n : Nat) (moves : List MoveStr) (c : Cube C), moves.length ≤ n →
      (∀ m ∈ moves, m ∈ allMoves) →
      replay_moves c (optimize_solution moves) = replay_moves c moves := by
  intro n
  induction n with
  | zero =>
    intro moves c hlen hv
    have h0 : moves = [] := List.eq_nil_of_length_eq_zero (Nat.le_zero.mp hlen)
    subst h0
    rfl
  | succ n ih =>
    intro moves c hlen hv
    match moves with
    | [] => rfl
    | [m] => rfl
    | m1 :: m2 :: rest =>
      have h1 : m1 ∈ allMoves := hv m1 (by simp)
      have h2 : m2 ∈ allMoves := hv m2 (by simp)
      have hrest : ∀ m ∈ rest, m ∈ allMoves := fun m hm => hv m (by simp [hm])
      have hlen2 : rest.length ≤ n := by
        simp only [List.length_cons] at hlen
        omega
      have hlen3 : (m2 :: rest).length ≤ n := by
        simp only [List.length_cons] at hlen ⊢
        omega
      have ha1 := apply_move_allMoves c m1 h1
      by_cases hh : m1.head? = m2.head?
      · have hface : moveFace m2 = moveFace m1 := moveFace_head m2 m1 hh.symm
        have hb1 : turnsOfMove m1 ≤ 3 := by
          rcases turnsOfMove_mem m1 h1 with h | h | h <;> omega
        have hb2 : turnsOfMove m2 ≤ 3 := by
          rcases turnsOfMove_mem m2 h2 with h | h | h <;> omega
        have hR : replay_moves c (m1 :: m2 :: rest)
            = replay_moves (repeatAtomic (moveFace m1) ((turnsOfMove m1 + turnsOfMove m2) % 4) c) rest := by
          rw [replay_cons_ok ha1, replay_cons_ok (apply_move_allMoves _ m2 h2), hface,
              repeatAtomic_merge (moveFace m1) _ _ hb1 hb2]
        by_cases hz : (turnsOfMove m1 + turnsOfMove m2) % 4 = 0
        · rw [optimize_cons_merge0 m1 m2 rest hh hz, hR, hz]
          exact ih rest c hlen2 hrest
        · have ht : (turnsOfMove m1 + turnsOfMove m2) % 4 = 1
              ∨ (turnsOfMove m1 + turnsOfMove m2) % 4 = 2
              ∨ (turnsOfMove m1 + turnsOfMove m2) % 4 = 3 := by omega
          rw [optimize_cons_merge m1 m2 rest hh hz, hR,
              replay_cons_ok (apply_move_merged c m1 h1 _ ht)]
          exact ih rest _ hlen2 hrest
      · rw [optimize_cons_diff m1 m2 rest hh, replay_cons_ok ha1, replay_cons_ok ha1]
        exact ih (m2 :: rest) _ hlen3 fun m hm => hv m (List.mem_cons_of_mem m1 hm)

/-- C10: for every raw move log of valid move texts and every structurally
valid cube state, replaying the optimizer's output from that state yields
exactly the same final cube state as replaying the raw log: the single
merge pass preserves the net permutation of the move sequence. -/
theorem optimize_solution_preserves_replay {C : Type} (c : Cube C) (moves : List MoveStr)
    (h : ∀ m ∈ moves, m ∈ allMoves) :
    replay_moves c (optimize_solution moves) = replay_moves c moves :=
  replay_optimize_aux moves.length moves c (Nat.le_refl _) h

/-- Witness for C10 at the scramble log. -/
theorem optimize_solution_preserves_replay_witness :
    replay_moves solvedCube (optimize_solution scramble) = replay_moves solvedCube scramble :=
  optimize_solution_preserves_replay solvedCube scramble (by decide)

set_option maxHeartbeats 4000000 in
/-- C1: evaluation of the code at the spec's own scenario.  The state
obtained by applying `["R","U","R'","U'"]` to the solved cube is not
solved; running `solve` on it raises the Python `NameError` of the
undefined variable `edge` at app.py line 317 (inside the bottom-layer loop
of `_solve_white_corners`), which the driver converts into the sentinel
failure entry; replaying the returned list via `apply_move` from the
scrambled state therefore fails on the first entry instead of reaching a
solved state — refuting the end-to-end property the claim states. -/
theorem solve_scramble_fails :
    replay_moves solvedCube scramble = .ok scrambledCube
    ∧ is_cube_solved scrambledCube = false
    ∧ (CubeSolver.init scrambledCube).solve_body = .error .nameError
    ∧ CubeSolver.solve scrambledCube = [sentinelChars]
    ∧ replay_moves scrambledCube (CubeSolver.solve scrambledCube) = .error .invalidMove := by
  exact ⟨rfl, rfl, rfl, rfl, rfl⟩
